import Mathlib

/-!
# Verification of the wego `lexvec` options subsystem

Shallow embedding of `pkg/model/lexvec/options.go` (package `lexvec`):
the `RelationType` string enum, the `Options` configuration aggregate
with its defaults, the cobra flag registration in `LoadForCmd`, and the
functional option builders.

Go pointer-receiver methods that mutate their receiver are embedded in
state-passing style: they return the updated receiver together with
their Go return value. Go `int` values are embedded as `Int` (no
arithmetic is performed on them in this subsystem), `float64` values as
`Rat` (they are only stored and compared, never computed with), and
`string` as `String`.
-/

namespace lexvec

/-- Alias for `String`, needed inside the `RelationType` namespace where
the method name `RelationType.String` shadows the type. -/
abbrev Str : Type := String

/-- Embeds Go's `type RelationType string`: a distinct string type. -/
structure RelationType where
  val : String
deriving DecidableEq, Repr

/-- `PPMI RelationType = "ppmi"` -/
def PPMI : RelationType := ⟨"ppmi"⟩

/-- `PMI RelationType = "pmi"` -/
def PMI : RelationType := ⟨"pmi"⟩

/-- `Collocation RelationType = "co"` -/
def Collocation : RelationType := ⟨"co"⟩

/-- `LogCollocation RelationType = "logco"` -/
def LogCollocation : RelationType := ⟨"logco"⟩

/-- `defaultRelationType = PPMI` -/
def defaultRelationType : RelationType := PPMI

/-- Embeds `invalidRelationTypeError`: the message built by
`errors.Errorf("invalid relation type: %s not in %s|%s|%s|%s", typ, PPMI, PMI, Collocation, LogCollocation)`. -/
def invalidRelationTypeError (typ : RelationType) : String :=
  "invalid relation type: " ++ typ.val ++ " not in " ++ PPMI.val ++ "|" ++
    PMI.val ++ "|" ++ Collocation.val ++ "|" ++ LogCollocation.val

/-- Embeds `func (t *RelationType) String() string`. The receiver is
mutated when it holds the empty sentinel, so the embedding returns the
updated receiver together with the rendered string. -/
def RelationType.String (t : RelationType) : RelationType × Str :=
  let t := if t = RelationType.mk "" then defaultRelationType else t
  (t, t.val)

/-- Embeds `func (t *RelationType) Set(name string) error`. Returns the
updated receiver and `none` on success, or the unchanged receiver and
`some errorMessage` on failure. -/
def RelationType.Set (t : RelationType) (name : Str) : RelationType × Option Str :=
  let typ : RelationType := ⟨name⟩
  if typ = PPMI ∨ typ = PMI ∨ typ = Collocation ∨ typ = LogCollocation then
    (typ, none)
  else
    (t, some (invalidRelationTypeError typ))

/-- Embeds `func (t *RelationType) Type() string`, which returns
`t.String()`. (`Type` is a Lean keyword, hence the primed name.) -/
def RelationType.Type' (t : RelationType) : RelationType × Str :=
  RelationType.String t

/-- A host machine: the number of processing units it reports
(`runtime.NumCPU()`) at each instant of time. Time is abstract (`Nat`
instants); `runtime.NumCPU` returns a Go `int`. -/
structure Host where
  numCPU : Nat → Int

/-- The non-constant package-level variables of package `lexvec`. Go
initializes package-level variables once, when the package is loaded;
`defaultGoroutines = runtime.NumCPU()` is the only one whose initializer
reads the host, so it is the only one modelled as load-time state. -/
structure PkgVars where
  defaultGoroutines : Int
deriving DecidableEq, Repr

/-- Package-variable initialization at program load: evaluates
`runtime.NumCPU()` on `host` at the load instant `loadTime`. -/
def pkgVarsInit (host : Host) (loadTime : Nat) : PkgVars :=
  ⟨host.numCPU loadTime⟩

/-- `defaultBatchSize = 100000` -/
def defaultBatchSize : Int := 100000

/-- `defaultDim = 10` -/
def defaultDim : Int := 10

/-- `defaultDocInMemory = false` -/
def defaultDocInMemory : Bool := false

/-- `defaultInitlr = 0.025` -/
def defaultInitlr : Rat := 0.025

/-- `defaultIter = 15` -/
def defaultIter : Int := 15

/-- `defaultMaxCount = -1` -/
def defaultMaxCount : Int := -1

/-- `defaultMinCount = 5` -/
def defaultMinCount : Int := 5

/-- `defaultNegativeSampleSize = 5` -/
def defaultNegativeSampleSize : Int := 5

/-- `defaultSmooth = 0.75` -/
def defaultSmooth : Rat := 0.75

/-- `defaultSubsampleThreshold = 1.0e-3` -/
def defaultSubsampleThreshold : Rat := 0.001

/-- `defaultTheta = 1.0e-4` -/
def defaultTheta : Rat := 0.0001

/-- `defaultToLower = false` -/
def defaultToLower : Bool := false

/-- `defaultVerbose = false` -/
def defaultVerbose : Bool := false

/-- `defaultWindow = 5` -/
def defaultWindow : Int := 5

/-- Embeds the `Options` struct, field for field and in source order. -/
structure Options where
  BatchSize : Int
  Dim : Int
  DocInMemory : Bool
  Goroutines : Int
  Initlr : Rat
  Iter : Int
  MaxCount : Int
  MinCount : Int
  NegativeSampleSize : Int
  RelationType : RelationType
  Smooth : Rat
  SubsampleThreshold : Rat
  Theta : Rat
  ToLower : Bool
  Verbose : Bool
  Window : Int
deriving DecidableEq, Repr

/-- Embeds `func DefaultOptions() Options`. It reads the package-level
default variables; the load-time snapshot `pv` carries the only
non-constant one (`defaultGoroutines`). -/
def DefaultOptions (pv : PkgVars) : Options :=
  { BatchSize := defaultBatchSize
    Dim := defaultDim
    DocInMemory := defaultDocInMemory
    Goroutines := pv.defaultGoroutines
    Initlr := defaultInitlr
    Iter := defaultIter
    MaxCount := defaultMaxCount
    MinCount := defaultMinCount
    NegativeSampleSize := defaultNegativeSampleSize
    RelationType := defaultRelationType
    Smooth := defaultSmooth
    SubsampleThreshold := defaultSubsampleThreshold
    Theta := defaultTheta
    ToLower := defaultToLower
    Verbose := defaultVerbose
    Window := defaultWindow }

/-- Embeds `type ModelOption func(*Options)`: a deferred mutation of an
`Options` value, in state-passing style. -/
def ModelOption : Type := Options → Options

/-- Embeds `func BatchSize(v int) ModelOption`. -/
def BatchSize (v : Int) : ModelOption :=
  fun opts => { opts with BatchSize := v }

/-- Embeds `func DocInMemory() ModelOption`. -/
def DocInMemory : ModelOption :=
  fun opts => { opts with DocInMemory := true }

/-- Embeds `func Goroutines(v int) ModelOption`. -/
def Goroutines (v : Int) : ModelOption :=
  fun opts => { opts with Goroutines := v }

/-- Embeds `func Dim(v int) ModelOption`. -/
def Dim (v : Int) : ModelOption :=
  fun opts => { opts with Dim := v }

/-- Embeds `func Initlr(v float64) ModelOption`. -/
def Initlr (v : Rat) : ModelOption :=
  fun opts => { opts with Initlr := v }

/-- Embeds `func Iter(v int) ModelOption`. -/
def Iter (v : Int) : ModelOption :=
  fun opts => { opts with Iter := v }

/-- Embeds `func MaxCount(v int) ModelOption`. -/
def MaxCount (v : Int) : ModelOption :=
  fun opts => { opts with MaxCount := v }

/-- Embeds `func MinCount(v int) ModelOption`. -/
def MinCount (v : Int) : ModelOption :=
  fun opts => { opts with MinCount := v }

/-- Embeds `func NegativeSampleSize(v int) ModelOption`. -/
def NegativeSampleSize (v : Int) : ModelOption :=
  fun opts => { opts with NegativeSampleSize := v }

/-- Embeds `func Relation(typ RelationType) ModelOption`. It assigns the
raw enum value; it does not call `RelationType.Set`. -/
def Relation (typ : RelationType) : ModelOption :=
  fun opts => { opts with RelationType := typ }

/-- Embeds `func Smooth(v float64) ModelOption`. -/
def Smooth (v : Rat) : ModelOption :=
  fun opts => { opts with Smooth := v }

/-- Embeds `func SubsampleThreshold(v float64) ModelOption`. -/
def SubsampleThreshold (v : Rat) : ModelOption :=
  fun opts => { opts with SubsampleThreshold := v }

/-- Embeds `func Theta(v float64) ModelOption`. -/
def Theta (v : Rat) : ModelOption :=
  fun opts => { opts with Theta := v }

/-- Embeds `func ToLower() ModelOption`. -/
def ToLower : ModelOption :=
  fun opts => { opts with ToLower := true }

/-- Embeds `func Verbose() ModelOption`. -/
def Verbose : ModelOption :=
  fun opts => { opts with Verbose := true }

/-- Embeds `func Window(v int) ModelOption`. -/
def Window (v : Int) : ModelOption :=
  fun opts => { opts with Window := v }

/-- Names of the sixteen `Options` fields. -/
inductive FieldName
  | batchSize
  | dim
  | docInMemory
  | goroutines
  | initlr
  | iter
  | maxCount
  | minCount
  | negativeSampleSize
  | relationType
  | smooth
  | subsampleThreshold
  | theta
  | toLower
  | verbose
  | window
deriving DecidableEq, Repr, Fintype

/-- All sixteen field names, in the order `LoadForCmd` registers their
flags. -/
def allFields : List FieldName :=
  [.batchSize, .dim, .goroutines, .docInMemory, .initlr, .iter, .maxCount,
   .minCount, .negativeSampleSize, .relationType, .smooth,
   .subsampleThreshold, .theta, .toLower, .verbose, .window]

/-- The value of one `Options` field, as a tagged union over the four
field types. -/
inductive FieldValue
  | ofInt (v : Int)
  | ofFloat (v : Rat)
  | ofBool (v : Bool)
  | ofRel (v : RelationType)
deriving DecidableEq, Repr

/-- Projects the named field out of an `Options` value. -/
def getField (o : Options) : FieldName → FieldValue
  | .batchSize => .ofInt o.BatchSize
  | .dim => .ofInt o.Dim
  | .docInMemory => .ofBool o.DocInMemory
  | .goroutines => .ofInt o.Goroutines
  | .initlr => .ofFloat o.Initlr
  | .iter => .ofInt o.Iter
  | .maxCount => .ofInt o.MaxCount
  | .minCount => .ofInt o.MinCount
  | .negativeSampleSize => .ofInt o.NegativeSampleSize
  | .relationType => .ofRel o.RelationType
  | .smooth => .ofFloat o.Smooth
  | .subsampleThreshold => .ofFloat o.SubsampleThreshold
  | .theta => .ofFloat o.Theta
  | .toLower => .ofBool o.ToLower
  | .verbose => .ofBool o.Verbose
  | .window => .ofInt o.Window

/-- One call to a builder of the option set, with its argument. The
sixteen constructors enumerate exactly the sixteen builder functions the
source exports. -/
inductive BuilderCall
  | batchSize (v : Int)
  | docInMemory
  | goroutines (v : Int)
  | dim (v : Int)
  | initlr (v : Rat)
  | iter (v : Int)
  | maxCount (v : Int)
  | minCount (v : Int)
  | negativeSampleSize (v : Int)
  | relation (typ : RelationType)
  | smooth (v : Rat)
  | subsampleThreshold (v : Rat)
  | theta (v : Rat)
  | toLower
  | verbose
  | window (v : Int)

/-- Maps a builder call to the `ModelOption` the corresponding source
builder returns. -/
def BuilderCall.toOption : BuilderCall → ModelOption
  | .batchSize v => BatchSize v
  | .docInMemory => DocInMemory
  | .goroutines v => Goroutines v
  | .dim v => Dim v
  | .initlr v => Initlr v
  | .iter v => Iter v
  | .maxCount v => MaxCount v
  | .minCount v => MinCount v
  | .negativeSampleSize v => NegativeSampleSize v
  | .relation typ => Relation typ
  | .smooth v => Smooth v
  | .subsampleThreshold v => SubsampleThreshold v
  | .theta v => Theta v
  | .toLower => ToLower
  | .verbose => Verbose
  | .window v => Window v

/-- The one field a builder call targets. -/
def BuilderCall.targetField : BuilderCall → FieldName
  | .batchSize _ => .batchSize
  | .docInMemory => .docInMemory
  | .goroutines _ => .goroutines
  | .dim _ => .dim
  | .initlr _ => .initlr
  | .iter _ => .iter
  | .maxCount _ => .maxCount
  | .minCount _ => .minCount
  | .negativeSampleSize _ => .negativeSampleSize
  | .relation _ => .relationType
  | .smooth _ => .smooth
  | .subsampleThreshold _ => .subsampleThreshold
  | .theta _ => .theta
  | .toLower => .toLower
  | .verbose => .verbose
  | .window _ => .window

/-- Modelled from the spec: the composition contract of §4.4 — the
model's constructor (not under `src/`) applies an ordered list of
`ModelOption` mutations to a base `Options` value, in order. -/
def applyOptions (opts : Options) (os : List ModelOption) : Options :=
  os.foldl (fun cur o => o cur) opts

/-- What cobra records as a flag's default: the value passed to the
typed `IntVar`/`Float64Var`/`BoolVar` registration, or, for a flag
registered through `Var` (the custom-value hook), the bound value's
`String()` rendering at registration time. -/
inductive FlagDefault
  | ofInt (v : Int)
  | ofFloat (v : Rat)
  | ofBool (v : Bool)
  | ofVar (v : String)
deriving DecidableEq, Repr

/-- One flag registration made by `LoadForCmd`: the `Options` field the
flag is bound to, the long flag name, the optional one-letter shorthand
(only the `...VarP` registrations have one), the recorded default, and
the usage string. -/
structure FlagReg where
  bound : FieldName
  longName : String
  shorthand : Option String
  defValue : FlagDefault
  usage : String
deriving DecidableEq, Repr

/-- Embeds `func LoadForCmd(cmd *cobra.Command, opts *Options)`: the
list of flag registrations it performs, in source order, together with
the `Options` value after registration. Registering the `rel` flag with
`cmd.Flags().Var` records `opts.RelationType.String()` as the flag's
default, and that `String()` call mutates the bound enum when it holds
the empty sentinel, which is why an updated `Options` is returned. -/
def LoadForCmd (pv : PkgVars) (opts : Options) : List FlagReg × Options :=
  let rel := RelationType.String opts.RelationType
  ([ ⟨.batchSize, "batch", none, .ofInt defaultBatchSize, "batch size to train"⟩,
     ⟨.dim, "dim", some "d", .ofInt defaultDim, "dimension for word vector"⟩,
     ⟨.goroutines, "goroutines", none, .ofInt pv.defaultGoroutines, "number of goroutine"⟩,
     ⟨.docInMemory, "in-memory", none, .ofBool defaultDocInMemory, "whether to store the doc in memory"⟩,
     ⟨.initlr, "initlr", none, .ofFloat defaultInitlr, "initial learning rate"⟩,
     ⟨.iter, "iter", none, .ofInt defaultIter, "number of iteration"⟩,
     ⟨.maxCount, "max-count", none, .ofInt defaultMaxCount, "upper limit to filter words"⟩,
     ⟨.minCount, "min-count", none, .ofInt defaultMinCount, "lower limit to filter words"⟩,
     ⟨.negativeSampleSize, "sample", none, .ofInt defaultNegativeSampleSize, "negative sample size"⟩,
     ⟨.relationType, "rel", none, .ofVar rel.2, "relation type for co-occurrence words. One of ppmi|pmi|co|logco"⟩,
     ⟨.smooth, "smooth", none, .ofFloat defaultSmooth, "smoothing value for co-occurence value"⟩,
     ⟨.subsampleThreshold, "threshold", none, .ofFloat defaultSubsampleThreshold, "threshold for subsampling"⟩,
     ⟨.theta, "theta", none, .ofFloat defaultTheta, "lower limit of learning rate (lr >= initlr * theta)"⟩,
     ⟨.toLower, "to-lower", none, .ofBool defaultToLower, "whether the words on corpus convert to lowercase or not"⟩,
     ⟨.verbose, "verbose", none, .ofBool defaultVerbose, "verbose mode"⟩,
     ⟨.window, "window", some "w", .ofInt defaultWindow, "context window size"⟩ ],
   { opts with RelationType := rel.1 })

/-- The default that §4.3 of the spec expects a field's flag to carry:
the field's value in the given (default) configuration, rendered through
the same tagged union `LoadForCmd` produces. -/
def expectedDefault (o : Options) : FieldName → FlagDefault
  | .batchSize => .ofInt o.BatchSize
  | .dim => .ofInt o.Dim
  | .docInMemory => .ofBool o.DocInMemory
  | .goroutines => .ofInt o.Goroutines
  | .initlr => .ofFloat o.Initlr
  | .iter => .ofInt o.Iter
  | .maxCount => .ofInt o.MaxCount
  | .minCount => .ofInt o.MinCount
  | .negativeSampleSize => .ofInt o.NegativeSampleSize
  | .relationType => .ofVar o.RelationType.val
  | .smooth => .ofFloat o.Smooth
  | .subsampleThreshold => .ofFloat o.SubsampleThreshold
  | .theta => .ofFloat o.Theta
  | .toLower => .ofBool o.ToLower
  | .verbose => .ofBool o.Verbose
  | .window => .ofInt o.Window

/-- A concrete host whose reported processing-unit count changes between
instant 0 and instant 1. -/
def exampleHost : Host :=
  ⟨fun n => if n = 0 then 4 else 8⟩

/-- A concrete configuration used by witnesses: the defaults on a
host reporting 8 processing units at load. -/
def sampleOptions : Options :=
  DefaultOptions ⟨8⟩

/-- String concatenation is associative (helper for reasoning about the
error message built from pieces). -/
theorem strAppendAssoc (a b c : String) : a ++ b ++ c = a ++ (b ++ c) := by
  apply String.ext
  exact List.append_assoc a.data b.data c.data

/-- The `invalidRelationTypeError` message spells out the rejected token
between the fixed prefix and the fixed `ppmi|pmi|co|logco` enumeration. -/
theorem invalidRelationTypeError_eq (s : String) :
    invalidRelationTypeError ⟨s⟩ =
      "invalid relation type: " ++ s ++ " not in ppmi|pmi|co|logco" := by
  unfold invalidRelationTypeError
  simp only [strAppendAssoc]
  rfl

/-- C2: for every string `s` outside `ppmi`, `pmi`, `co`, `logco` and
every prior enum value `v`, `Set` fails with the message that names `s`
and enumerates the four legal tokens in the order `ppmi|pmi|co|logco`,
leaving the enum equal to `v`; for every string in that set, `Set`
succeeds. -/
theorem set_invalid_rejects (s : String) (v : RelationType) :
    (s ∉ (["ppmi", "pmi", "co", "logco"] : List String) →
      RelationType.Set v s =
        (v, some ("invalid relation type: " ++ s ++ " not in ppmi|pmi|co|logco"))) ∧
    (s ∈ (["ppmi", "pmi", "co", "logco"] : List String) →
      RelationType.Set v s = (⟨s⟩, none)) := by
  constructor
  · intro h
    simp only [List.mem_cons, List.not_mem_nil, or_false, not_or] at h
    have hn : ¬((RelationType.mk s) = PPMI ∨ (RelationType.mk s) = PMI ∨
        (RelationType.mk s) = Collocation ∨ (RelationType.mk s) = LogCollocation) := by
      simp only [PPMI, PMI, Collocation, LogCollocation, RelationType.mk.injEq, not_or]
      exact h
    unfold RelationType.Set
    rw [if_neg hn, invalidRelationTypeError_eq]
  · intro h
    simp only [List.mem_cons, List.not_mem_nil, or_false] at h
    rcases h with rfl | rfl | rfl | rfl <;> rfl

/-- Witness for C2: `Set("bogus")` on an enum holding `pmi` fails with
the expected message and leaves the enum at `pmi`; `Set("co")` succeeds. -/
theorem set_invalid_rejects_witness :
    ("bogus" ∉ (["ppmi", "pmi", "co", "logco"] : List String)) ∧
    RelationType.Set PMI "bogus" =
      (PMI, some ("invalid relation type: " ++ "bogus" ++ " not in ppmi|pmi|co|logco")) ∧
    ("co" ∈ (["ppmi", "pmi", "co", "logco"] : List String)) ∧
    RelationType.Set PMI "co" = (⟨"co"⟩, none) :=
  ⟨by decide, (set_invalid_rejects "bogus" PMI).1 (by decide),
   by decide, (set_invalid_rejects "co" PMI).2 (by decide)⟩

/-- C3: for each of the four legal tokens `t`, `Set(t)` succeeds and a
subsequent `String()` on the updated enum returns exactly `t` without
changing it further. -/
theorem set_legal_roundtrip (t : String) (v : RelationType)
    (h : t ∈ (["ppmi", "pmi", "co", "logco"] : List String)) :
    (RelationType.Set v t).2 = none ∧
    RelationType.String (RelationType.Set v t).1 = ((RelationType.Set v t).1, t) := by
  simp only [List.mem_cons, List.not_mem_nil, or_false] at h
  rcases h with rfl | rfl | rfl | rfl <;> exact ⟨rfl, rfl⟩

/-- Witness for C3: the round trip at the token `logco` from prior
value `ppmi`. -/
theorem set_legal_roundtrip_witness :
    ("logco" ∈ (["ppmi", "pmi", "co", "logco"] : List String)) ∧
    (RelationType.Set PPMI "logco").2 = none ∧
    RelationType.String (RelationType.Set PPMI "logco").1 =
      ((RelationType.Set PPMI "logco").1, "logco") :=
  ⟨by decide, set_legal_roundtrip "logco" PPMI (by decide)⟩

/-- C4: `String()` on the empty sentinel returns `"ppmi"` and leaves
the receiver in exactly the state that `Set("ppmi")` produces, so all
subsequent operations behave as if `Set("ppmi")` had been called. -/
theorem string_lazy_default :
    RelationType.String ⟨""⟩ = (⟨"ppmi"⟩, "ppmi") ∧
    (RelationType.String ⟨""⟩).1 = (RelationType.Set ⟨""⟩ "ppmi").1 :=
  ⟨rfl, rfl⟩

/-- C10: `Type()` is extensionally equal to `String()` — same rendered
string and same receiver mutation on every state — and in particular on
the zero-valued enum it returns `"ppmi"` and installs the default. -/
theorem type_eq_string :
    (∀ t : RelationType, RelationType.Type' t = RelationType.String t) ∧
    RelationType.Type' ⟨""⟩ = (⟨"ppmi"⟩, "ppmi") :=
  ⟨fun _ => rfl, rfl⟩

/-- C1 as stated is false: `defaultGoroutines` is a package-level
variable initialized once at program load, so a `DefaultOptions` call
made when the host reports a different count still returns the
load-time value. Here the host reports 4 units at the load instant and
8 at instant 1, and a call observing instant 1 still gets 4. -/
theorem goroutines_not_call_time_cex :
    (DefaultOptions (pkgVarsInit exampleHost 0)).Goroutines ≠ exampleHost.numCPU 1 := by
  decide

/-- C1 amended: `DefaultOptions().Goroutines` equals the host's
processing-unit count as observed at program-load time, when the
package variable `defaultGoroutines = runtime.NumCPU()` is initialized;
`DefaultOptions` takes no call-time observation at all, so every call
returns this one load-time snapshot. -/
theorem goroutines_load_time_snapshot (host : Host) (loadTime : Nat) :
    (DefaultOptions (pkgVarsInit host loadTime)).Goroutines = host.numCPU loadTime :=
  rfl

/-- C5: applying an ordered list of options performs each single-field
mutation in order (head first, and splitting a sequence is composing
the two halves), later writes to the same field win, and
`[Dim 50, Dim 100]` on a default configuration yields dimension 100. -/
theorem options_compose_in_order :
    (∀ (c : Options) (o : ModelOption) (os : List ModelOption),
      applyOptions c (o :: os) = applyOptions (o c) os) ∧
    (∀ (c : Options) (os1 os2 : List ModelOption),
      applyOptions c (os1 ++ os2) = applyOptions (applyOptions c os1) os2) ∧
    (∀ (c : Options) (v w : Int), (applyOptions c [Dim v, Dim w]).Dim = w) ∧
    (∀ pv : PkgVars, (applyOptions (DefaultOptions pv) [Dim 50, Dim 100]).Dim = 100) := by
  refine ⟨fun c o os => rfl, fun c os1 os2 => ?_, fun c v w => rfl, fun pv => rfl⟩
  unfold applyOptions
  exact List.foldl_append _ _ _ _

/-- C6: a builder call mutates at most its one target field — every
other field of the configuration is unchanged. -/
theorem builders_frame (b : BuilderCall) (c : Options) (g : FieldName)
    (h : g ≠ b.targetField) :
    getField (b.toOption c) g = getField c g := by
  cases b <;> cases g <;> first | rfl | exact absurd rfl h

/-- Witness for C6: `BatchSize 7` leaves the `dim` field of the sample
configuration unchanged. -/
theorem builders_frame_witness :
    (FieldName.dim ≠ (BuilderCall.batchSize 7).targetField) ∧
    getField (BuilderCall.toOption (BuilderCall.batchSize 7) sampleOptions) FieldName.dim =
      getField sampleOptions FieldName.dim :=
  ⟨by decide, builders_frame (BuilderCall.batchSize 7) sampleOptions FieldName.dim (by decide)⟩

/-- C7: `DocInMemory`, `ToLower` and `Verbose` take no argument and set
their field to `true` on any configuration, and no builder of the
option set ever makes any of these three fields `false`: each builder
leaves the field as it was or sets it to `true`. -/
theorem enable_only_builders :
    (∀ c : Options,
      (DocInMemory c).DocInMemory = true ∧
      (ToLower c).ToLower = true ∧
      (Verbose c).Verbose = true) ∧
    (∀ (b : BuilderCall) (c : Options),
      ((b.toOption c).DocInMemory = c.DocInMemory ∨ (b.toOption c).DocInMemory = true) ∧
      ((b.toOption c).ToLower = c.ToLower ∨ (b.toOption c).ToLower = true) ∧
      ((b.toOption c).Verbose = c.Verbose ∨ (b.toOption c).Verbose = true)) := by
  refine ⟨fun c => ⟨rfl, rfl, rfl⟩, fun b c => ?_⟩
  cases b <;>
    refine ⟨?_, ?_, ?_⟩ <;>
    first | exact Or.inl rfl | exact Or.inr rfl

/-- C8: no builder validates its argument: every builder stores the
given value verbatim in its target field, for every value — including a
negative dimension and a relation value outside the four legal tokens,
which the `Relation` builder assigns without routing through `Set` (as
shown by `Set` rejecting the same token the builder accepts). -/
theorem builders_store_verbatim :
    (∀ (c : Options) (v : Int), (BatchSize v c).BatchSize = v) ∧
    (∀ (c : Options) (v : Int), (Dim v c).Dim = v) ∧
    (∀ (c : Options) (v : Int), (Goroutines v c).Goroutines = v) ∧
    (∀ (c : Options) (v : Rat), (Initlr v c).Initlr = v) ∧
    (∀ (c : Options) (v : Int), (Iter v c).Iter = v) ∧
    (∀ (c : Options) (v : Int), (MaxCount v c).MaxCount = v) ∧
    (∀ (c : Options) (v : Int), (MinCount v c).MinCount = v) ∧
    (∀ (c : Options) (v : Int), (NegativeSampleSize v c).NegativeSampleSize = v) ∧
    (∀ (c : Options) (typ : RelationType), (Relation typ c).RelationType = typ) ∧
    (∀ (c : Options) (v : Rat), (Smooth v c).Smooth = v) ∧
    (∀ (c : Options) (v : Rat), (SubsampleThreshold v c).SubsampleThreshold = v) ∧
    (∀ (c : Options) (v : Rat), (Theta v c).Theta = v) ∧
    (∀ (c : Options) (v : Int), (Window v c).Window = v) ∧
    ((Dim (-3) sampleOptions).Dim = -3 ∧
      (Relation ⟨"bogus"⟩ sampleOptions).RelationType = ⟨"bogus"⟩ ∧
      (RelationType.Set sampleOptions.RelationType "bogus").2.isSome = true) := by
  refine ⟨fun c v => rfl, fun c v => rfl, fun c v => rfl, fun c v => rfl,
    fun c v => rfl, fun c v => rfl, fun c v => rfl, fun c v => rfl,
    fun c typ => rfl, fun c v => rfl, fun c v => rfl, fun c v => rfl,
    fun c v => rfl, rfl, rfl, by decide⟩

/-- C9 as stated is false: the `rel` flag is registered through the
custom-value hook, which records the bound enum's current value — not a
supplied default — so calling `LoadForCmd` on an `Options` whose
relation type is `pmi` records `pmi` where `DefaultOptions` holds
`ppmi`. The `rel` registration sits at index 9 of the list. -/
theorem loadForCmd_rel_default_cex :
    ((LoadForCmd ⟨8⟩ { DefaultOptions ⟨8⟩ with RelationType := ⟨"pmi"⟩ }).1[9]?).map
        FlagReg.bound = some FieldName.relationType ∧
    ((LoadForCmd ⟨8⟩ { DefaultOptions ⟨8⟩ with RelationType := ⟨"pmi"⟩ }).1[9]?).map
        FlagReg.defValue = some (FlagDefault.ofVar "pmi") ∧
    expectedDefault (DefaultOptions ⟨8⟩) FieldName.relationType = FlagDefault.ofVar "ppmi" ∧
    FlagDefault.ofVar "pmi" ≠ FlagDefault.ofVar "ppmi" :=
  ⟨rfl, rfl, rfl, by decide⟩

/-- C9 amended: `LoadForCmd` registers exactly one flag per `Options`
field (in particular the sixteen bound fields, without duplicates,
exhaust the field set); when it is called on a default-constructed
`Options`, every flag's recorded default equals the corresponding
`DefaultOptions` field — the fifteen value-typed flags carry the
default constants unconditionally, while the `rel` flag records the
bound enum's current value; and only the `dim` and `window` flags carry
shorthands, `d` and `w` respectively. -/
theorem loadForCmd_registrations (pv : PkgVars) :
    ((LoadForCmd pv (DefaultOptions pv)).1.map FlagReg.bound) = allFields ∧
    allFields.Nodup ∧
    (∀ f : FieldName, f ∈ allFields) ∧
    ((LoadForCmd pv (DefaultOptions pv)).1.map FlagReg.defValue) =
      allFields.map (expectedDefault (DefaultOptions pv)) ∧
    (((LoadForCmd pv (DefaultOptions pv)).1.map
        (fun r => (r.bound, r.shorthand))).filter (fun p => p.2.isSome)) =
      [(FieldName.dim, some "d"), (FieldName.window, some "w")] :=
  ⟨rfl, by decide, by decide, rfl, rfl⟩

end lexvec
